import Mathlib

/-
  Verification of the realtime session relay of `src/server.py`
  (ABI-Covid-19/map-server).

  The relay keeps a module-level dict `__sessions` mapping a viewer's
  connection id to a session dict holding the viewer's origin `host` and,
  once a worker has attached, the worker's connection id under the key
  `simulation`.  Three socket.io event handlers operate on it:

    * `connect(sid, data)`   - registers a viewer session (when the connect
      payload carries HTTP_ORIGIN) or attaches a worker to the session named
      by the payload's HTTP_KEY;
    * `disconnect(sid)`      - removes the session keyed by `sid`, if any;
    * `msg(sid, msg)`        - the message router.

  The embedding below transcribes those handlers.  Python dicts become
  association lists, fallible dict subscripts become `Except` values (the
  error string names the Python exception class that would be raised), and
  the outbound effects of the `msg` handler (socket.io emits, celery task
  submissions, forced disconnects) are collected in a result record.
-/

/-- Connection identifiers are opaque server-assigned tokens, compared only
for equality; we model them as strings. -/
abbrev Sid := String

/-- JSON-like payload values as relayed by the server.  The relay is
payload-agnostic: it never computes with numbers, so number literals are
kept as their source text (a JSON number on the wire is text). -/
inductive Json where
  | null : Json
  | bool (b : Bool) : Json
  | str (s : String) : Json
  | num (lit : String) : Json
  | arr (xs : List Json) : Json
  | obj (fields : List (String × Json)) : Json

/-- First-match lookup in a JSON object's field list (Python dicts cannot
hold duplicate keys, so object literals built by the server never do). -/
def lookupField : List (String × Json) → String → Option Json
  | [], _ => none
  | (k2, v) :: rest, k => if k2 = k then some v else lookupField rest k

/-- Python `d.get(k)` on a JSON value: `ok none` when the key is absent,
`error "AttributeError"` when the value is not a dict (no `.get` method). -/
def dictGet : Json → String → Except String (Option Json)
  | Json.obj fs, k => Except.ok (lookupField fs k)
  | _, _ => Except.error "AttributeError"

/-- Python `d[k]` on a JSON value: `KeyError` when the key is absent from a
dict, `TypeError` when the value is not subscriptable by a string. -/
def subscriptJ : Json → String → Except String Json
  | Json.obj fs, k =>
    match lookupField fs k with
    | some v => Except.ok v
    | none => Except.error "KeyError"
  | _, _ => Except.error "TypeError"

/-- Python `value == "lit"` for a value fetched with `.get` (`none` models
Python `None`): true exactly when the value is the string `lit`. -/
def isStrVal : Option Json → String → Bool
  | some (Json.str s), t => s = t
  | _, _ => false

/-- A session record: `__sessions[sid] = ('host': ..., optional 'simulation': ...)`. -/
structure Session where
  host : String
  simulation : Option Sid
deriving DecidableEq, Repr

/-- The `__sessions` dict, keyed by the owning viewer's connection id. -/
abbrev Store := List (Sid × Session)

/-- Dict lookup, first match. -/
def storeFind : Store → Sid → Option Session
  | [], _ => none
  | (k2, v) :: rest, k => if k2 = k then some v else storeFind rest k

/-- Dict assignment: replace an existing binding in place, else append
(Python dicts keep insertion order). -/
def storeInsert : Store → Sid → Session → Store
  | [], k, v => [(k, v)]
  | (k2, v2) :: rest, k, v =>
    if k2 = k then (k, v) :: rest else (k2, v2) :: storeInsert rest k v

/-- Dict deletion. -/
def storeErase : Store → Sid → Store
  | [], _ => []
  | (k2, v2) :: rest, k =>
    if k2 = k then storeErase rest k else (k2, v2) :: storeErase rest k

/-- Python `k in __sessions`. -/
def storeMem (s : Store) (k : Sid) : Bool := (storeFind s k).isSome

/-- The connect payload: the three markers the `connect` handler inspects. -/
structure ConnData where
  origin : Option String
  host : Option String
  key : Option String
deriving DecidableEq, Repr

/-- Python `str` of an optional value, as used by `'http://{0}'.format(...)`:
`None` prints as `"None"`. -/
def formatOpt : Option String → String
  | some h => h
  | none => "None"

/-- The `connect` event handler.  With an HTTP_ORIGIN marker it registers a
fresh session for `sid` (no-op when one exists); otherwise, with an HTTP_KEY
marker, it executes `__sessions[data['HTTP_KEY']]['simulation'] = sid`,
which raises `KeyError` when the key names no session. -/
def connect (sid : Sid) (d : ConnData) (s : Store) : Except String Store :=
  if d.origin.isSome then
    if storeMem s sid then Except.ok s
    else Except.ok (storeInsert s sid ⟨"http://" ++ formatOpt d.host, none⟩)
  else
    match d.key with
    | some k =>
      match storeFind s k with
      | some sess => Except.ok (storeInsert s k ⟨sess.host, some sid⟩)
      | none => Except.error "KeyError"
    | none => Except.ok s

/-- The `disconnect` event handler: `if sid in __sessions: del __sessions[sid]`. -/
def disconnect (sid : Sid) (s : Store) : Store := storeErase s sid

/-- An inbound message as the `msg` handler reads it: the three top-level
fields it ever fetches, each possibly absent. -/
structure Msg where
  mtype : Option String
  mkey : Option String
  mdata : Option Json

/-- A socket.io emit produced by `__send_message(msg_type, data, room)`:
the event payload is the dict literal `('type': msg_type, 'data': data)`. -/
structure Emit where
  room : Sid
  payload : Json

/-- Transcription of `__send_message`. -/
def sendMessage (msgType : String) (data : Json) (room : Sid) : Emit :=
  ⟨room, Json.obj [("type", Json.str msgType), ("data", data)]⟩

/-- One celery `send_task` submission with its keyword arguments. -/
structure TaskCall where
  name : String
  host : String
  key : String
  params : Json

/-- The effects of one run of the `msg` handler: the session store it leaves
behind, the emits, the task submissions and the forced disconnects, each in
program order. -/
structure MsgRes where
  store : Store
  emits : List Emit
  tasks : List TaskCall
  disconnects : List Sid

/-- Lower-case hexadecimal digit, as produced by Python's format spec `04x`. -/
def hexDigitChar (n : Nat) : Char :=
  if n < 10 then Char.ofNat (48 + n) else Char.ofNat (87 + n)

/-- Four lower-case hex digits of `n % 65536`, Python `'\u(04x)'` body. -/
def u4hex (n : Nat) : String :=
  String.mk [hexDigitChar (n / 4096 % 16), hexDigitChar (n / 256 % 16),
             hexDigitChar (n / 16 % 16), hexDigitChar (n % 16)]

/-- Escape of one character inside a JSON string, per `json.dumps` with its
default `ensure_ascii=True`: the two-character shortcuts of ESCAPE_DCT,
printable ASCII verbatim, everything else as `\uXXXX` (surrogate pairs for
astral code points). -/
def escapeAsciiChar (c : Char) : String :=
  if c = '\\' then "\\\\"
  else if c = '"' then "\\\""
  else if c = '\x08' then "\\b"
  else if c = '\t' then "\\t"
  else if c = '\n' then "\\n"
  else if c = '\x0c' then "\\f"
  else if c = '\r' then "\\r"
  else if 32 ≤ c.toNat ∧ c.toNat ≤ 126 then String.singleton c
  else if c.toNat < 65536 then "\\u" ++ u4hex c.toNat
  else
    "\\u" ++ u4hex (55296 + (c.toNat - 65536) / 1024)
      ++ "\\u" ++ u4hex (56320 + (c.toNat - 65536) % 1024)

/-- Body of a serialized JSON string. -/
def escAscii (s : String) : String := String.join (s.data.map escapeAsciiChar)

mutual

/-- `json.dumps` with its default arguments (separators `", "` and `": "`,
`ensure_ascii=True`), transcribed for the payload values of the embedding;
number literals print as their source text. -/
def dumps : Json → String
  | Json.null => "null"
  | Json.bool b => if b then "true" else "false"
  | Json.str s => "\"" ++ escAscii s ++ "\""
  | Json.num lit => lit
  | Json.arr xs => "[" ++ dumpsArr xs ++ "]"
  | Json.obj fs => "\x7b" ++ dumpsObj fs ++ "\x7d"

/-- Comma-joined serialization of array elements. -/
def dumpsArr : List Json → String
  | [] => ""
  | [x] => dumps x
  | x :: y :: rest => dumps x ++ ", " ++ dumpsArr (y :: rest)

/-- Comma-joined serialization of object entries, `"key": value`. -/
def dumpsObj : List (String × Json) → String
  | [] => ""
  | [(k, v)] => "\"" ++ escAscii k ++ "\": " ++ dumps v
  | (k, v) :: e :: rest =>
    "\"" ++ escAscii k ++ "\": " ++ dumps v ++ ", " ++ dumpsObj (e :: rest)

end

/-- The dict literal the mouse/click branch builds from the supplied
longitude/latitude: a FeatureCollection with a single Point feature at
coordinates `[lng, lat]`. -/
def mouseGeojson (lng lat : Json) : Json :=
  Json.obj [("type", Json.str "FeatureCollection"),
            ("features", Json.arr [
              Json.obj [("type", Json.str "Feature"),
                        ("geometry", Json.obj [
                          ("type", Json.str "Point"),
                          ("coordinates", Json.arr [lng, lat])])]])]

/-- Python `msg.get('data', (empty dict))` of line 233. -/
def optMsgData (o : Option Json) : Json := o.getD (Json.obj [])

/-- Python `msg.get('key') in __sessions`: `None in dict` is false. -/
def keyGuard : Option Sid → Store → Bool
  | some k, s => storeMem s k
  | none, _ => false

/-- The worker-originated control branch (lines 237-244): a
`simulation`/`closedown` control message keyed to a live session sends one
`control/simulation/stopped` acknowledgment to the session key and forces
the sender's connection closed; `sio.disconnect(sid)` fires the registered
`disconnect` handler, so the store becomes `disconnect sid s`.  Any other
control content is dropped. -/
def workerControl (sid k : Sid) (s : Store) (controlType action : Option Json) :
    Except String MsgRes :=
  if isStrVal controlType "simulation" then
    if isStrVal action "closedown" then
      Except.ok ⟨disconnect sid s,
                 [sendMessage "control"
                   (Json.obj [("type", Json.str "simulation"),
                              ("action", Json.str "stopped")]) k],
                 [], [sid]⟩
    else Except.ok ⟨s, [], [], []⟩
  else Except.ok ⟨s, [], [], []⟩

/-- The browser-originated control branch (lines 246-278), reached when the
message's key matches no session but the sender's own connection id does:
`mouse`/`click` echoes a serialized FeatureCollection back to the sender;
`simulation`/`start` submits one celery task (`params` is Python `None`,
i.e. `Json.null`, when the inner `data` field is absent);
`simulation`/`stop` messages the attached worker, if any.  Everything else
is dropped. -/
def viewerControl (sid : Sid) (s : Store) (msgData : Json)
    (controlType action : Option Json) : Except String MsgRes :=
  match storeFind s sid with
  | none => Except.ok ⟨s, [], [], []⟩
  | some session =>
    if isStrVal controlType "mouse" then
      if isStrVal action "click" then
        match dictGet msgData "data" with
        | Except.error e => Except.error e
        | Except.ok none => Except.error "TypeError"
        | Except.ok (some lngLat) =>
          match subscriptJ lngLat "lng" with
          | Except.error e => Except.error e
          | Except.ok lng =>
            match subscriptJ lngLat "lat" with
            | Except.error e => Except.error e
            | Except.ok lat =>
              Except.ok ⟨s,
                [sendMessage "data"
                  (Json.obj [("type", Json.str "geojson"),
                             ("data", Json.str (dumps (mouseGeojson lng lat)))])
                  sid],
                [], []⟩
      else Except.ok ⟨s, [], [], []⟩
    else if isStrVal controlType "simulation" then
      if isStrVal action "start" then
        match dictGet msgData "data" with
        | Except.error e => Except.error e
        | Except.ok params =>
          Except.ok ⟨s, [],
            [⟨"simulations.transportation.run", session.host, sid,
              params.getD Json.null⟩], []⟩
      else if isStrVal action "stop" then
        match session.simulation with
        | some w =>
          Except.ok ⟨s,
            [sendMessage "control"
              (Json.obj [("type", Json.str "simulation"),
                         ("action", Json.str "stop")]) w],
            [], []⟩
        | none => Except.ok ⟨s, [], [], []⟩
      else Except.ok ⟨s, [], [], []⟩
    else Except.ok ⟨s, [], [], []⟩

/-- The `msg` event handler (lines 226-278).  `data`/`metadata` messages
keyed to a live session are forwarded to the session key; `control`
messages are classified worker-first (on the message key) then viewer (on
the sender's id); everything else is dropped.  `msg['data']` on a
data/metadata message without a `data` field raises `KeyError`, as in the
source. -/
def msgHandler (sid : Sid) (m : Msg) (s : Store) : Except String MsgRes :=
  if m.mtype = some "data" ∨ m.mtype = some "metadata" then
    match m.mtype, m.mkey with
    | some t, some k =>
      if storeMem s k then
        match m.mdata with
        | some d => Except.ok ⟨s, [sendMessage t d k], [], []⟩
        | none => Except.error "KeyError"
      else Except.ok ⟨s, [], [], []⟩
    | _, _ => Except.ok ⟨s, [], [], []⟩
  else if m.mtype = some "control" then
    match dictGet (optMsgData m.mdata) "type" with
    | Except.error e => Except.error e
    | Except.ok controlType =>
      match dictGet (optMsgData m.mdata) "action" with
      | Except.error e => Except.error e
      | Except.ok action =>
        if keyGuard m.mkey s then
          workerControl sid (m.mkey.getD "") s controlType action
        else
          viewerControl sid s (optMsgData m.mdata) controlType action
  else Except.ok ⟨s, [], [], []⟩

/-- A relay event: one of the three socket.io callbacks firing. -/
inductive Event where
  | conn (sid : Sid) (d : ConnData) : Event
  | disc (sid : Sid) : Event
  | message (sid : Sid) (m : Msg) : Event

/-- One event against the store.  An uncaught handler exception leaves the
store as it was (every raising subscript in the source happens before any
mutation) and the server keeps serving. -/
def stepEvent (s : Store) : Event → Store
  | Event.conn sid d =>
    match connect sid d s with
    | Except.ok s2 => s2
    | Except.error _ => s
  | Event.disc sid => disconnect sid s
  | Event.message sid m =>
    match msgHandler sid m s with
    | Except.ok r => r.store
    | Except.error _ => s

/-- A sequence of events against the store. -/
def runEvents (s : Store) : List Event → Store
  | [] => s
  | e :: es => runEvents (stepEvent s e) es

/-- Whether an event is a connect-with-origin for `sid`, the only kind of
event that can create a session keyed by `sid`. -/
def introducesSession (sid : Sid) : Event → Bool
  | Event.conn sid2 d => sid2 == sid && d.origin.isSome
  | _ => false

/-- A worker attach presenting correlation key `k` from connection `w`. -/
def attachEvent (k w : Sid) : Event := Event.conn w ⟨none, none, some k⟩

/-- Last element of a list of attaching worker ids. -/
def lastAttach : List Sid → Option Sid
  | [] => none
  | [w] => some w
  | _ :: w :: rest => lastAttach (w :: rest)

/-! ### Store lemmas -/

theorem storeFind_insert_self (s : Store) (k : Sid) (v : Session) :
    storeFind (storeInsert s k v) k = some v := by
  induction s with
  | nil => simp [storeInsert, storeFind]
  | cons p rest ih =>
    by_cases h : p.1 = k
    · simp [storeInsert, storeFind, h]
    · simp [storeInsert, storeFind, h, ih]

theorem storeFind_insert_ne (s : Store) (k k2 : Sid) (v : Session) (h : k2 ≠ k) :
    storeFind (storeInsert s k v) k2 = storeFind s k2 := by
  induction s with
  | nil => simp [storeInsert, storeFind, Ne.symm h]
  | cons p rest ih =>
    obtain ⟨a, b⟩ := p
    by_cases hp : a = k
    · subst hp
      simp [storeInsert, storeFind, Ne.symm h]
    · simp [storeInsert, storeFind, hp, ih]

theorem storeFind_erase_self (s : Store) (k : Sid) :
    storeFind (storeErase s k) k = none := by
  induction s with
  | nil => simp [storeErase, storeFind]
  | cons p rest ih =>
    by_cases hp : p.1 = k
    · simp [storeErase, hp, ih]
    · simp [storeErase, storeFind, hp, ih]

theorem storeFind_erase_ne (s : Store) (k k2 : Sid) (h : k2 ≠ k) :
    storeFind (storeErase s k) k2 = storeFind s k2 := by
  induction s with
  | nil => simp [storeErase]
  | cons p rest ih =>
    obtain ⟨a, b⟩ := p
    by_cases hp : a = k
    · subst hp
      simp [storeErase, storeFind, Ne.symm h, ih]
    · simp [storeErase, storeFind, hp, ih]

theorem storeMem_erase_self (s : Store) (k : Sid) :
    storeMem (storeErase s k) k = false := by
  simp [storeMem, storeFind_erase_self]

theorem storeMem_erase_ne (s : Store) (k k2 : Sid) (h : k2 ≠ k) :
    storeMem (storeErase s k) k2 = storeMem s k2 := by
  simp [storeMem, storeFind_erase_ne s k k2 h]

theorem storeMem_insert (s : Store) (k k2 : Sid) (v : Session) :
    storeMem (storeInsert s k v) k2 = (k2 == k || storeMem s k2) := by
  by_cases h : k2 = k
  · subst h
    simp [storeMem, storeFind_insert_self]
  · simp [storeMem, storeFind_insert_ne s k k2 v h, h]

/-! ### Effects of the handlers on session existence -/

theorem msgHandler_store (sid : Sid) (m : Msg) (s : Store) (r : MsgRes)
    (h : msgHandler sid m s = Except.ok r) :
    r.store = s ∨ r.store = disconnect sid s := by
  unfold msgHandler workerControl viewerControl at h
  repeat' split at h
  all_goals
    first
    | (injection h with h2; subst h2;
       first | exact Or.inl rfl | exact Or.inr rfl)
    | simp at h

theorem stepEvent_notMem (x : Sid) (s : Store) (e : Event)
    (hx : storeMem s x = false) (hi : introducesSession x e = false) :
    storeMem (stepEvent s e) x = false := by
  cases e with
  | conn sid d =>
    simp only [stepEvent]
    cases hc : connect sid d s with
    | error e2 => exact hx
    | ok s2 =>
      show storeMem s2 x = false
      unfold connect at hc
      by_cases ho : d.origin.isSome = true
      · rw [if_pos ho] at hc
        by_cases hm : storeMem s sid = true
        · rw [if_pos hm] at hc
          injection hc with h2
          subst h2
          exact hx
        · rw [if_neg hm] at hc
          injection hc with h2
          subst h2
          have hne : x ≠ sid := by
            intro h2
            subst h2
            simp [introducesSession, ho] at hi
          simp [storeMem_insert, hx, hne]
      · rw [if_neg ho] at hc
        cases hk : d.key with
        | none =>
          rw [hk] at hc
          injection hc with h2
          subst h2
          exact hx
        | some k =>
          rw [hk] at hc
          dsimp only at hc
          cases hf : storeFind s k with
          | none => rw [hf] at hc; cases hc
          | some sess =>
            rw [hf] at hc
            injection hc with h2
            subst h2
            have hne : x ≠ k := by
              intro h2
              subst h2
              simp [storeMem, hf] at hx
            simp [storeMem_insert, hx, hne]
  | disc sid =>
    by_cases h2 : x = sid
    · subst h2
      simp [stepEvent, disconnect, storeMem_erase_self]
    · simp [stepEvent, disconnect, storeMem_erase_ne s sid x h2, hx]
  | message sid m =>
    simp only [stepEvent]
    cases hr : msgHandler sid m s with
    | error e2 => exact hx
    | ok r =>
      show storeMem r.store x = false
      rcases msgHandler_store sid m s r hr with h2 | h2 <;> rw [h2]
      · exact hx
      · by_cases h3 : x = sid
        · subst h3
          simp [disconnect, storeMem_erase_self]
        · simp [disconnect, storeMem_erase_ne s sid x h3, hx]

theorem runEvents_notMem (x : Sid) (es : List Event) :
    ∀ s : Store, storeMem s x = false →
      (∀ e ∈ es, introducesSession x e = false) →
      storeMem (runEvents s es) x = false := by
  induction es with
  | nil => intro s hx _; simpa [runEvents] using hx
  | cons e rest ih =>
    intro s hx hall
    simp only [runEvents]
    exact ih (stepEvent s e)
      (stepEvent_notMem x s e hx (hall e (List.mem_cons_self e rest)))
      (fun e2 he2 => hall e2 (List.mem_cons_of_mem e he2))

/-! ### Claim C1 -/

/-- Claim C1 (counterexample): a connect event carrying a correlation key
(`HTTP_KEY`) that matches no session is not a silent no-op — the handler's
`__sessions[data['HTTP_KEY']]` subscript raises `KeyError`, refuting the
claim that "no error is raised". -/
theorem c1_counterexample :
    connect "w" ⟨none, none, some "k"⟩ [] = Except.error "KeyError" := rfl

/-- Claim C1 (amended): for every connect event carrying a correlation-key
marker whose key matches no session, the handler raises `KeyError`; the
session store is unchanged (the subscript fails before any mutation), but
the attach is not silent. -/
theorem c1_attach_unmatched_raises (sid k : Sid) (d : ConnData) (s : Store)
    (ho : d.origin = none) (hk : d.key = some k) (hm : storeMem s k = false) :
    connect sid d s = Except.error "KeyError" ∧
      stepEvent s (Event.conn sid d) = s := by
  have hf : storeFind s k = none := by
    cases hf2 : storeFind s k with
    | none => rfl
    | some sess => simp [storeMem, hf2] at hm
  have hc : connect sid d s = Except.error "KeyError" := by
    unfold connect
    rw [ho, hk]
    simp [hf]
  exact ⟨hc, by simp [stepEvent, hc]⟩

/-- Witness for `c1_attach_unmatched_raises` at a concrete input. -/
theorem c1_attach_unmatched_raises_witness :
    connect "w" ⟨none, none, some "k"⟩ [] = Except.error "KeyError" ∧
      stepEvent [] (Event.conn "w" ⟨none, none, some "k"⟩) = ([] : Store) :=
  c1_attach_unmatched_raises "w" "k" ⟨none, none, some "k"⟩ [] rfl rfl rfl

/-! ### Claim C2 -/

/-- Claim C2 (counterexample): a `control/simulation/stop` from the owning
viewer of a session with an attached worker does NOT clear the pending
simulation — the store comes back with `simulation` still `some "w"` (the
handler only messages the worker; it never deletes the field). -/
theorem c2_counterexample :
    msgHandler "v"
      ⟨some "control", none,
        some (Json.obj [("type", Json.str "simulation"),
                        ("action", Json.str "stop")])⟩
      [("v", ⟨"http://h", some "w"⟩)]
    = Except.ok ⟨[("v", ⟨"http://h", some "w"⟩)],
        [sendMessage "control"
          (Json.obj [("type", Json.str "simulation"),
                     ("action", Json.str "stop")]) "w"],
        [], []⟩ := rfl

/-- Claim C2 (amended): for every session with a pending simulation,
processing `control`/`simulation`/`stop` from the owning viewer (a message
whose own key matches no session) sends exactly one
`control/simulation/stop` to the attached worker and leaves the session
store — in particular `workerConnectionId` — unchanged; nothing is cleared. -/
theorem c2_stop_does_not_clear (sid w : Sid) (m : Msg) (s : Store) (sess : Session)
    (hs : storeFind s sid = some sess) (hw : sess.simulation = some w)
    (htype : m.mtype = some "control")
    (hkey : keyGuard m.mkey s = false)
    (hct : dictGet (optMsgData m.mdata) "type" =
      Except.ok (some (Json.str "simulation")))
    (hact : dictGet (optMsgData m.mdata) "action" =
      Except.ok (some (Json.str "stop"))) :
    msgHandler sid m s =
      Except.ok ⟨s,
        [sendMessage "control"
          (Json.obj [("type", Json.str "simulation"),
                     ("action", Json.str "stop")]) w],
        [], []⟩
    ∧ storeFind s sid = some sess := by
  refine ⟨?_, hs⟩
  unfold msgHandler
  rw [htype, hct, hact, hkey]
  simp [viewerControl, isStrVal, hs, hw]

/-- Witness for `c2_stop_does_not_clear` at a concrete input. -/
theorem c2_stop_does_not_clear_witness :
    msgHandler "v"
      ⟨some "control", none,
        some (Json.obj [("type", Json.str "simulation"),
                        ("action", Json.str "stop")])⟩
      [("v", ⟨"http://h", some "w"⟩)]
    = Except.ok ⟨[("v", ⟨"http://h", some "w"⟩)],
        [sendMessage "control"
          (Json.obj [("type", Json.str "simulation"),
                     ("action", Json.str "stop")]) "w"],
        [], []⟩
    ∧ storeFind [("v", ⟨"http://h", some "w"⟩)] "v" = some ⟨"http://h", some "w"⟩ :=
  c2_stop_does_not_clear "v" "w" _ _ ⟨"http://h", some "w"⟩ rfl rfl rfl rfl rfl rfl

/-! ### Claim C3 -/

/-- Claim C3: a `data` or `metadata` message whose top-level key names a
live session is forwarded as a single `(type, data)` envelope to exactly
the connection identified by the session key, and to no other; when the key
names no session, nothing is sent. -/
theorem c3_data_metadata_relay (sid k t : String) (d : Json) (m : Msg) (s : Store)
    (ht : m.mtype = some t) (htt : t = "data" ∨ t = "metadata")
    (hk : m.mkey = some k) (hd : m.mdata = some d) :
    (storeMem s k = true →
      msgHandler sid m s = Except.ok ⟨s, [sendMessage t d k], [], []⟩) ∧
    (storeMem s k = false →
      msgHandler sid m s = Except.ok ⟨s, [], [], []⟩) := by
  constructor <;> intro hmem <;> rcases htt with h | h <;> subst h <;>
    simp [msgHandler, ht, hk, hd, hmem]

/-- Witness for `c3_data_metadata_relay` at a concrete input. -/
theorem c3_data_metadata_relay_witness :
    (storeMem [("v", ⟨"http://h", some "w"⟩)] "v" = true →
      msgHandler "w" ⟨some "data", some "v", some (Json.str "payload")⟩
        [("v", ⟨"http://h", some "w"⟩)]
      = Except.ok ⟨[("v", ⟨"http://h", some "w"⟩)],
          [sendMessage "data" (Json.str "payload") "v"], [], []⟩) ∧
    (storeMem [("v", ⟨"http://h", some "w"⟩)] "v" = false →
      msgHandler "w" ⟨some "data", some "v", some (Json.str "payload")⟩
        [("v", ⟨"http://h", some "w"⟩)]
      = Except.ok ⟨[("v", ⟨"http://h", some "w"⟩)], [], [], []⟩) :=
  c3_data_metadata_relay "w" "v" "data" (Json.str "payload") _ _
    rfl (Or.inl rfl) rfl rfl

/-! ### Claim C4 -/

/-- Claim C4: a `control`/`simulation`/`closedown` whose top-level key
names a live session (a worker's acknowledgment — the sender is not the
session's viewer) sends exactly one `control/simulation/stopped` message
to the session key, force-disconnects the sending connection (the forced
disconnect fires the `disconnect` handler, hence the store becomes
`disconnect sid s`), and the session survives: it is still present
afterwards, while only erasing the viewer's own id removes it. -/
theorem c4_closedown_handshake (sid k : Sid) (m : Msg) (s : Store)
    (htype : m.mtype = some "control") (hk : m.mkey = some k)
    (hmem : storeMem s k = true)
    (hct : dictGet (optMsgData m.mdata) "type" =
      Except.ok (some (Json.str "simulation")))
    (hact : dictGet (optMsgData m.mdata) "action" =
      Except.ok (some (Json.str "closedown")))
    (hsender : sid ≠ k) :
    msgHandler sid m s =
      Except.ok ⟨disconnect sid s,
        [sendMessage "control"
          (Json.obj [("type", Json.str "simulation"),
                     ("action", Json.str "stopped")]) k],
        [], [sid]⟩
    ∧ storeMem (disconnect sid s) k = true
    ∧ storeMem (disconnect k s) k = false := by
  refine ⟨?_, ?_, ?_⟩
  · unfold msgHandler
    rw [htype, hct, hact, hk]
    simp [keyGuard, hmem, workerControl, isStrVal]
  · rw [disconnect, storeMem_erase_ne s sid k (Ne.symm hsender)]
    exact hmem
  · rw [disconnect]
    exact storeMem_erase_self s k

/-- Witness for `c4_closedown_handshake` at a concrete input. -/
theorem c4_closedown_handshake_witness :
    msgHandler "w"
      ⟨some "control", some "v",
        some (Json.obj [("type", Json.str "simulation"),
                        ("action", Json.str "closedown")])⟩
      [("v", ⟨"http://h", some "w"⟩)]
    = Except.ok ⟨disconnect "w" [("v", ⟨"http://h", some "w"⟩)],
        [sendMessage "control"
          (Json.obj [("type", Json.str "simulation"),
                     ("action", Json.str "stopped")]) "v"],
        [], ["w"]⟩
    ∧ storeMem (disconnect "w" [("v", ⟨"http://h", some "w"⟩)]) "v" = true
    ∧ storeMem (disconnect "v" [("v", ⟨"http://h", some "w"⟩)]) "v" = false :=
  c4_closedown_handshake "w" "v" _ _ rfl rfl rfl rfl rfl (by decide)

/-! ### Claim C5 -/

/-- Claim C5: over any event sequence containing no connect-with-origin for
`sid` (the only event kind that creates a session keyed `sid`), no session
keyed `sid` exists; a connect-with-origin always succeeds and leaves a
session for `sid` in place; a second connect-with-origin while a session
exists is an idempotent no-op returning the store unchanged; and after a
disconnect of the same connection id the session is absent. -/
theorem c5_session_lifecycle (sid : Sid) (es : List Event) (d : ConnData) (s : Store)
    (hfresh : ∀ e ∈ es, introducesSession sid e = false)
    (ho : d.origin.isSome = true) :
    storeMem (runEvents [] es) sid = false
    ∧ (∃ s2 : Store, connect sid d s = Except.ok s2 ∧ storeMem s2 sid = true)
    ∧ (storeMem s sid = true → connect sid d s = Except.ok s)
    ∧ storeMem (disconnect sid s) sid = false := by
  refine ⟨runEvents_notMem sid es [] rfl hfresh, ?_, ?_, ?_⟩
  · by_cases hm : storeMem s sid = true
    · exact ⟨s, by simp [connect, ho, hm], hm⟩
    · refine ⟨storeInsert s sid ⟨"http://" ++ formatOpt d.host, none⟩,
        by simp [connect, ho, hm], ?_⟩
      simp [storeMem_insert]
  · intro hm
    simp [connect, ho, hm]
  · rw [disconnect]
    exact storeMem_erase_self s sid

/-- Witness for `c5_session_lifecycle` at a concrete input. -/
theorem c5_session_lifecycle_witness :
    storeMem (runEvents [] [Event.disc "a"]) "v" = false
    ∧ (∃ s2 : Store,
        connect "v" ⟨some "http://o", some "host", none⟩ [] = Except.ok s2 ∧
          storeMem s2 "v" = true)
    ∧ (storeMem [] "v" = true →
        connect "v" ⟨some "http://o", some "host", none⟩ [] = Except.ok [])
    ∧ storeMem (disconnect "v" []) "v" = false :=
  c5_session_lifecycle "v" [Event.disc "a"] ⟨some "http://o", some "host", none⟩ []
    (by intro e he; simp at he; subst he; rfl) rfl

/-! ### Claim C6 -/

/-- Claim C6 (counterexample): a `control`/`simulation`/`start` from a
sender whose own connection id keys a live session, but carrying a top-level
`key` that also names a live session (its own), is swallowed by the
worker-originated branch — zero task submissions instead of the claimed
exactly one. -/
theorem c6_counterexample :
    msgHandler "v"
      ⟨some "control", some "v",
        some (Json.obj [("type", Json.str "simulation"),
                        ("action", Json.str "start"),
                        ("data", Json.obj [("foo", Json.num "1")])])⟩
      [("v", ⟨"http://host", none⟩)]
    = Except.ok ⟨[("v", ⟨"http://host", none⟩)], [], [], []⟩ := rfl

/-- Claim C6 (amended): for every `control`/`simulation`/`start` from a
sender whose connection id keys a live session, provided the message's
top-level key does not itself name a live session (otherwise the
worker-originated branch shadows the viewer branch and nothing is
dispatched), exactly one task is submitted, with the fixed name
`simulations.transportation.run`, the session's recorded host, the sender's
connection id as key, and the caller-supplied parameters verbatim. -/
theorem c6_start_dispatches (sid : Sid) (m : Msg) (s : Store) (sess : Session)
    (params : Option Json)
    (htype : m.mtype = some "control")
    (hkey : keyGuard m.mkey s = false)
    (hs : storeFind s sid = some sess)
    (hct : dictGet (optMsgData m.mdata) "type" =
      Except.ok (some (Json.str "simulation")))
    (hact : dictGet (optMsgData m.mdata) "action" =
      Except.ok (some (Json.str "start")))
    (hparams : dictGet (optMsgData m.mdata) "data" = Except.ok params) :
    msgHandler sid m s =
      Except.ok ⟨s, [],
        [⟨"simulations.transportation.run", sess.host, sid,
          params.getD Json.null⟩], []⟩ := by
  unfold msgHandler
  rw [htype, hct, hact, hkey]
  simp [viewerControl, isStrVal, hs, hparams]

/-- Witness for `c6_start_dispatches` at a concrete input. -/
theorem c6_start_dispatches_witness :
    msgHandler "v"
      ⟨some "control", none,
        some (Json.obj [("type", Json.str "simulation"),
                        ("action", Json.str "start"),
                        ("data", Json.obj [("foo", Json.num "1")])])⟩
      [("v", ⟨"http://host", none⟩)]
    = Except.ok ⟨[("v", ⟨"http://host", none⟩)], [],
        [⟨"simulations.transportation.run", "http://host", "v",
          Json.obj [("foo", Json.num "1")]⟩], []⟩ :=
  c6_start_dispatches "v" _ _ ⟨"http://host", none⟩
    (some (Json.obj [("foo", Json.num "1")])) rfl rfl rfl rfl rfl rfl

/-! ### Claim C7 -/

/-- Claim C7 (counterexample): a `control`/`simulation`/`stop` from a
viewer whose connection id keys a live session with an attached worker, but
carrying a top-level `key` naming a live session (its own), is swallowed
by the worker-originated branch — no `control/simulation/stop` reaches the
worker, refuting the claimed delivery. -/
theorem c7_counterexample :
    msgHandler "v"
      ⟨some "control", some "v",
        some (Json.obj [("type", Json.str "simulation"),
                        ("action", Json.str "stop")])⟩
      [("v", ⟨"http://h", some "w"⟩)]
    = Except.ok ⟨[("v", ⟨"http://h", some "w"⟩)], [], [], []⟩ := rfl

/-- Claim C7 (amended): for every `control`/`simulation`/`stop` from a
viewer whose connection id keys a live session, provided the message's
top-level key does not itself name a live session: with an attached worker
exactly one `control/simulation/stop` is sent to that worker's connection;
with no attached worker the message is dropped with no error and nothing
is sent. -/
theorem c7_stop_routing (sid : Sid) (m : Msg) (s : Store) (sess : Session)
    (htype : m.mtype = some "control")
    (hkey : keyGuard m.mkey s = false)
    (hs : storeFind s sid = some sess)
    (hct : dictGet (optMsgData m.mdata) "type" =
      Except.ok (some (Json.str "simulation")))
    (hact : dictGet (optMsgData m.mdata) "action" =
      Except.ok (some (Json.str "stop"))) :
    (∀ w : Sid, sess.simulation = some w →
      msgHandler sid m s =
        Except.ok ⟨s,
          [sendMessage "control"
            (Json.obj [("type", Json.str "simulation"),
                       ("action", Json.str "stop")]) w],
          [], []⟩)
    ∧ (sess.simulation = none →
        msgHandler sid m s = Except.ok ⟨s, [], [], []⟩) := by
  constructor
  · intro w hw
    unfold msgHandler
    rw [htype, hct, hact, hkey]
    simp [viewerControl, isStrVal, hs, hw]
  · intro hw
    unfold msgHandler
    rw [htype, hct, hact, hkey]
    simp [viewerControl, isStrVal, hs, hw]

/-- Witness for `c7_stop_routing` at a concrete input. -/
theorem c7_stop_routing_witness :
    (∀ w : Sid, Session.simulation ⟨"http://h", some "w"⟩ = some w →
      msgHandler "v"
        ⟨some "control", none,
          some (Json.obj [("type", Json.str "simulation"),
                          ("action", Json.str "stop")])⟩
        [("v", ⟨"http://h", some "w"⟩)]
      = Except.ok ⟨[("v", ⟨"http://h", some "w"⟩)],
          [sendMessage "control"
            (Json.obj [("type", Json.str "simulation"),
                       ("action", Json.str "stop")]) w],
          [], []⟩)
    ∧ (Session.simulation ⟨"http://h", some "w"⟩ = none →
        msgHandler "v"
          ⟨some "control", none,
            some (Json.obj [("type", Json.str "simulation"),
                            ("action", Json.str "stop")])⟩
          [("v", ⟨"http://h", some "w"⟩)]
        = Except.ok ⟨[("v", ⟨"http://h", some "w"⟩)], [], [], []⟩) :=
  c7_stop_routing "v" _ _ ⟨"http://h", some "w"⟩ rfl rfl rfl rfl rfl

/-! ### Claim C8 -/

/-- Claim C8 (counterexample): a `control`/`mouse`/`click` from a viewer
whose connection id keys a live session, but carrying a top-level `key`
naming a live session (its own), is swallowed by the worker-originated
branch — no `data/geojson` reply is produced, refuting the claimed exactly
one reply. -/
theorem c8_counterexample :
    msgHandler "v"
      ⟨some "control", some "v",
        some (Json.obj [("type", Json.str "mouse"),
                        ("action", Json.str "click"),
                        ("data", Json.obj [("lng", Json.num "10.0"),
                                           ("lat", Json.num "20.0")])])⟩
      [("v", ⟨"http://h", none⟩)]
    = Except.ok ⟨[("v", ⟨"http://h", none⟩)], [], [], []⟩ := rfl

/-- Claim C8 (amended): for every `control`/`mouse`/`click` carrying
`lng`/`lat` from a viewer whose connection id keys a live session, provided
the message's top-level key does not itself name a live session, exactly
one `data` message with inner type `geojson` goes back to the sender and to
no one else (no worker is ever addressed), and its content is a
FeatureCollection with exactly one Point feature at coordinates
`[lng, lat]`. -/
theorem c8_mouse_click_echo (sid : Sid) (m : Msg) (s : Store) (sess : Session)
    (ll lng lat : Json)
    (htype : m.mtype = some "control")
    (hkey : keyGuard m.mkey s = false)
    (hs : storeFind s sid = some sess)
    (hct : dictGet (optMsgData m.mdata) "type" =
      Except.ok (some (Json.str "mouse")))
    (hact : dictGet (optMsgData m.mdata) "action" =
      Except.ok (some (Json.str "click")))
    (hll : dictGet (optMsgData m.mdata) "data" = Except.ok (some ll))
    (hlng : subscriptJ ll "lng" = Except.ok lng)
    (hlat : subscriptJ ll "lat" = Except.ok lat) :
    msgHandler sid m s =
      Except.ok ⟨s,
        [sendMessage "data"
          (Json.obj [("type", Json.str "geojson"),
                     ("data", Json.str (dumps (mouseGeojson lng lat)))]) sid],
        [], []⟩
    ∧ mouseGeojson lng lat =
        Json.obj [("type", Json.str "FeatureCollection"),
                  ("features", Json.arr [
                    Json.obj [("type", Json.str "Feature"),
                              ("geometry", Json.obj [
                                ("type", Json.str "Point"),
                                ("coordinates", Json.arr [lng, lat])])]])] := by
  refine ⟨?_, rfl⟩
  unfold msgHandler
  rw [htype, hct, hact, hkey]
  simp [viewerControl, isStrVal, hs, hll, hlng, hlat]

/-- Witness for `c8_mouse_click_echo` at a concrete input. -/
theorem c8_mouse_click_echo_witness :
    msgHandler "v"
      ⟨some "control", none,
        some (Json.obj [("type", Json.str "mouse"),
                        ("action", Json.str "click"),
                        ("data", Json.obj [("lng", Json.num "10.0"),
                                           ("lat", Json.num "20.0")])])⟩
      [("v", ⟨"http://h", none⟩)]
    = Except.ok ⟨[("v", ⟨"http://h", none⟩)],
        [sendMessage "data"
          (Json.obj [("type", Json.str "geojson"),
                     ("data", Json.str (dumps
                       (mouseGeojson (Json.num "10.0") (Json.num "20.0"))))]) "v"],
        [], []⟩
    ∧ mouseGeojson (Json.num "10.0") (Json.num "20.0") =
        Json.obj [("type", Json.str "FeatureCollection"),
                  ("features", Json.arr [
                    Json.obj [("type", Json.str "Feature"),
                              ("geometry", Json.obj [
                                ("type", Json.str "Point"),
                                ("coordinates",
                                  Json.arr [Json.num "10.0", Json.num "20.0"])])]])] :=
  c8_mouse_click_echo "v" _ _ ⟨"http://h", none⟩
    (Json.obj [("lng", Json.num "10.0"), ("lat", Json.num "20.0")])
    (Json.num "10.0") (Json.num "20.0") rfl rfl rfl rfl rfl rfl rfl rfl

/-! ### Claim C9 -/

theorem runEvents_attaches (k : Sid) (ws : List Sid) :
    ∀ (s : Store) (sess : Session), storeFind s k = some sess →
      ∀ w : Sid, lastAttach ws = some w →
        storeFind (runEvents s (ws.map (attachEvent k))) k =
          some ⟨sess.host, some w⟩ := by
  induction ws with
  | nil =>
    intro s sess hs w hw
    cases hw
  | cons w1 rest ih =>
    intro s sess hs w hw
    have hstep : stepEvent s (attachEvent k w1) =
        storeInsert s k ⟨sess.host, some w1⟩ := by
      simp [stepEvent, attachEvent, connect, hs]
    cases rest with
    | nil =>
      have hw1 : w = w1 := by
        have := hw
        simp [lastAttach] at this
        exact this.symm
      subst hw1
      simp [runEvents, hstep, storeFind_insert_self]
    | cons w2 rest2 =>
      have hw2 : lastAttach (w2 :: rest2) = some w := by
        simpa [lastAttach] using hw
      have hfind : storeFind (storeInsert s k ⟨sess.host, some w1⟩) k =
          some ⟨sess.host, some w1⟩ := storeFind_insert_self s k _
      have := ih (storeInsert s k ⟨sess.host, some w1⟩) ⟨sess.host, some w1⟩
        hfind w hw2
      simpa [runEvents, hstep] using this

/-- Claim C9: a session records at most one worker connection id at a time
(the `simulation` slot is a single value), and a sequence of worker
attaches presenting the session's key leaves exactly the last attacher's
connection id recorded — last-writer-wins, earlier attaches silently
overwritten, the host untouched, no rejection (each attach succeeds). -/
theorem c9_last_writer_wins (k : Sid) (s : Store) (sess : Session)
    (ws : List Sid) (w : Sid)
    (hs : storeFind s k = some sess) (hlast : lastAttach ws = some w) :
    storeFind (runEvents s (ws.map (attachEvent k))) k =
      some ⟨sess.host, some w⟩ :=
  runEvents_attaches k ws s sess hs w hlast

/-- Witness for `c9_last_writer_wins`: two successive attaches leave only
the second worker's id recorded. -/
theorem c9_last_writer_wins_witness :
    storeFind (runEvents [("v", ⟨"http://h", none⟩)]
      (["w1", "w2"].map (attachEvent "v"))) "v" =
      some ⟨"http://h", some "w2"⟩ :=
  c9_last_writer_wins "v" [("v", ⟨"http://h", none⟩)] ⟨"http://h", none⟩
    ["w1", "w2"] "w2" rfl rfl

/-! ### Claim C10 -/

/-- Claim C10: the `data/geojson` reply to a viewer's mouse/click carries
the FeatureCollection in its inner `data` field as a JSON-encoded string —
`Json.str (dumps ...)`, the output of `json.dumps` — and not as a
structured object. -/
theorem c10_geojson_reply_is_string (sid : Sid) (m : Msg) (s : Store)
    (sess : Session) (ll lng lat : Json)
    (htype : m.mtype = some "control")
    (hkey : keyGuard m.mkey s = false)
    (hs : storeFind s sid = some sess)
    (hct : dictGet (optMsgData m.mdata) "type" =
      Except.ok (some (Json.str "mouse")))
    (hact : dictGet (optMsgData m.mdata) "action" =
      Except.ok (some (Json.str "click")))
    (hll : dictGet (optMsgData m.mdata) "data" = Except.ok (some ll))
    (hlng : subscriptJ ll "lng" = Except.ok lng)
    (hlat : subscriptJ ll "lat" = Except.ok lat) :
    (∃ r : MsgRes, msgHandler sid m s = Except.ok r ∧
      r.emits = [⟨sid, Json.obj [("type", Json.str "data"),
        ("data", Json.obj [("type", Json.str "geojson"),
                           ("data", Json.str (dumps (mouseGeojson lng lat)))])]⟩])
    ∧ (∀ fs : List (String × Json),
        Json.str (dumps (mouseGeojson lng lat)) ≠ Json.obj fs) := by
  constructor
  · refine ⟨⟨s,
      [sendMessage "data"
        (Json.obj [("type", Json.str "geojson"),
                   ("data", Json.str (dumps (mouseGeojson lng lat)))]) sid],
      [], []⟩, ?_, rfl⟩
    unfold msgHandler
    rw [htype, hct, hact, hkey]
    simp [viewerControl, isStrVal, hs, hll, hlng, hlat]
  · intro fs h
    cases h

/-- Witness for `c10_geojson_reply_is_string` at a concrete input. -/
theorem c10_geojson_reply_is_string_witness :
    (∃ r : MsgRes,
      msgHandler "v"
        ⟨some "control", none,
          some (Json.obj [("type", Json.str "mouse"),
                          ("action", Json.str "click"),
                          ("data", Json.obj [("lng", Json.num "10.0"),
                                             ("lat", Json.num "20.0")])])⟩
        [("v", ⟨"http://h", none⟩)]
      = Except.ok r ∧
      r.emits = [⟨"v", Json.obj [("type", Json.str "data"),
        ("data", Json.obj [("type", Json.str "geojson"),
          ("data", Json.str (dumps
            (mouseGeojson (Json.num "10.0") (Json.num "20.0"))))])]⟩])
    ∧ (∀ fs : List (String × Json),
        Json.str (dumps (mouseGeojson (Json.num "10.0") (Json.num "20.0")))
          ≠ Json.obj fs) :=
  c10_geojson_reply_is_string "v" _ _ ⟨"http://h", none⟩
    (Json.obj [("lng", Json.num "10.0"), ("lat", Json.num "20.0")])
    (Json.num "10.0") (Json.num "20.0") rfl rfl rfl rfl rfl rfl rfl rfl
